import Mathlib

/-!
Shallow embedding of the request-handler module `src/routes.rs` of the
server-rendered blog, together with the pieces of its collaborators that the
handlers observe: the `DatabaseError` enum of the `db` module, the
`BlockingError` wrapper of the blocking-dispatch layer, and the template
engine seen as an abstract `render` function.  Handlers are pure functions
from the outcome of their blocking Data Access call and a render function to
`Except ServerError HttpResponse`, mirroring the linear gather → render →
respond shape of the Rust code.
-/

/-- A blog post (spec §3): unique slug, title, body, published timestamp. -/
structure Post where
  slug : String
  title : String
  body : String
  published : Nat
deriving DecidableEq, Repr

/-- The Data Access error enum.  `routes.rs` matches on the
`ConnectionPoolError` and `NotFound` variants; the `QueryError` variant is
Modelled from the spec: the `db` module defining `DatabaseError` is not under
`src/`, and spec §4.1 lists the variants `ConnectionPoolError`, `NotFound`
and `QueryError`, each carrying failure detail. -/
inductive DatabaseError where
  | ConnectionPoolError (detail : String)
  | NotFound (detail : String)
  | QueryError (detail : String)
deriving DecidableEq, Repr

/-- `actix_web::error::BlockingError<E>`: either the blocking task ran and
returned an error `E`, or the blocking execution context itself failed
(cancelled / rejected the task). -/
inductive BlockingError (E : Type) where
  | Error (e : E)
  | Canceled
deriving DecidableEq, Repr

/-- `ServerError` from `routes.rs` lines 10-16: the closed user-facing error
enum, carrying no payload. -/
inductive ServerError where
  | InternalError
  | PostNotFound
deriving DecidableEq, Repr

/-- The `Display` implementation derived on `ServerError` via the
`#[display(fmt = ...)]` attributes (`routes.rs` lines 12 and 14): the fixed
human-readable message of each kind (the source spells "ocurred"). -/
def ServerError.toMessage : ServerError → String
  | .InternalError => "An internal error ocurred. Please try again later."
  | .PostNotFound => "The post you are looking for does not exist."

/-- `ServerError::status_code` (`routes.rs` lines 26-31). -/
def ServerError.status_code : ServerError → Nat
  | .PostNotFound => 404
  | .InternalError => 500

/-- An HTTP response as the handlers construct it: numeric status, header
list, string body. -/
structure HttpResponse where
  status : Nat
  headers : List (String × String)
  body : String
deriving DecidableEq, Repr

/-- `ServerError::error_response` (`routes.rs` lines 20-24): builds a
response from `status_code`, sets the `Content-Type` header to
`text/html; charset=utf-8`, and takes the `Display` message as the body. -/
def ServerError.error_response (e : ServerError) : HttpResponse :=
  { status := e.status_code
  , headers := [("Content-Type", "text/html; charset=utf-8")]
  , body := e.toMessage }

/-- `HttpResponse::Ok().body(rendered)`: a 200 response whose body is the
rendered text; the handlers set no header explicitly on this path. -/
def HttpResponse.okBody (b : String) : HttpResponse :=
  { status := 200, headers := [], body := b }

/-- A value stored in a render context: the handlers only ever insert a list
of posts or a single post. -/
inductive TValue where
  | postList (ps : List Post)
  | singlePost (p : Post)
deriving DecidableEq, Repr

/-- `tera::Context`: a mapping from template variable name to value,
represented as an association list in insertion order. -/
abbrev Context := List (String × TValue)

/-- `Context::new()`: the empty context. -/
def Context.new : Context := []

/-- `Context::insert(key, value)`. -/
def Context.insert (c : Context) (k : String) (v : TValue) : Context :=
  c ++ [(k, v)]

/-- The template engine as the handlers see it:
`render(template_name, context) -> string | RenderError` (spec §6), with the
engine's error represented by its message string. -/
abbrev Render := String → Context → Except String String

/-- Handler `index` (`routes.rs` lines 34-44): renders `index.html.tera`
with an empty context; a render failure maps to `InternalError`. -/
def index (tmpl : Render) : Except ServerError HttpResponse :=
  let context := Context.new
  match tmpl "index.html.tera" context with
  | .error _ => .error ServerError.InternalError
  | .ok rendered => .ok (HttpResponse.okBody rendered)

/-- Handler `blog` (`routes.rs` lines 46-75).  The outcome of
`web::block(select_last_n_posts(10, pool)).await` is passed in as
`blockResult`.  Every failure of the block — connection-pool or otherwise —
maps to `InternalError` (both match arms at lines 55-62 produce it); on
success the posts are inserted under key "posts" and `blog.html.tera` is
rendered. -/
def blog (blockResult : Except (BlockingError DatabaseError) (List Post))
    (tmpl : Render) : Except ServerError HttpResponse :=
  match blockResult with
  | .error e =>
      .error (match e with
        | BlockingError.Error (DatabaseError.ConnectionPoolError _) =>
            ServerError.InternalError
        | _ => ServerError.InternalError)
  | .ok posts =>
      let context := Context.insert Context.new "posts" (TValue.postList posts)
      match tmpl "blog.html.tera" context with
      | .error _ => .error ServerError.InternalError
      | .ok rendered => .ok (HttpResponse.okBody rendered)

/-- Handler `post` (`routes.rs` lines 77-111).  The outcome of
`web::block(select_post_with_slug(slug, pool)).await` is passed in as
`blockResult`.  `ConnectionPoolError` maps to `InternalError`, `NotFound`
maps to `PostNotFound`, anything else (other database errors, or the
blocking dispatch itself failing) maps to `InternalError`; on success the
post is inserted under key "post" and `post.html.tera` is rendered. -/
def post (blockResult : Except (BlockingError DatabaseError) Post)
    (tmpl : Render) : Except ServerError HttpResponse :=
  match blockResult with
  | .error e =>
      .error (match e with
        | BlockingError.Error (DatabaseError.ConnectionPoolError _) =>
            ServerError.InternalError
        | BlockingError.Error (DatabaseError.NotFound _) =>
            ServerError.PostNotFound
        | _ => ServerError.InternalError)
  | .ok p =>
      let context := Context.insert Context.new "post" (TValue.singlePost p)
      match tmpl "post.html.tera" context with
      | .error _ => .error ServerError.InternalError
      | .ok rendered => .ok (HttpResponse.okBody rendered)

/-- Handler `hire_me` (`routes.rs` lines 113-124): renders
`hireme.html.tera` with an empty context; a render failure maps to
`InternalError`. -/
def hire_me (tmpl : Render) : Except ServerError HttpResponse :=
  let context := Context.new
  match tmpl "hireme.html.tera" context with
  | .error _ => .error ServerError.InternalError
  | .ok rendered => .ok (HttpResponse.okBody rendered)

/-- The `index` route as dispatched by the server: the server state carries
a database store, but the `index` handler's signature takes only the
template set, so the store is unused. -/
def index_route (store : List Post) (tmpl : Render) :
    Except ServerError HttpResponse :=
  let _ := store
  index tmpl

/-- The `hire_me` route as dispatched by the server: the server state
carries a database store, but the `hire_me` handler's signature takes only
the template set, so the store is unused. -/
def hire_me_route (store : List Post) (tmpl : Render) :
    Except ServerError HttpResponse :=
  let _ := store
  hire_me tmpl

/-- Claim C1: when the single-post lookup fails with `NotFound`, the `post`
handler returns `PostNotFound`, whose HTTP response is exactly status 404
with the fixed post-not-found message as the whole body. -/
theorem post_notFound_maps_to_404 :
    (∀ (d : String) (tmpl : Render),
      post (.error (BlockingError.Error (DatabaseError.NotFound d))) tmpl
        = .error ServerError.PostNotFound) ∧
    ServerError.PostNotFound.error_response
      = { status := 404
        , headers := [("Content-Type", "text/html; charset=utf-8")]
        , body := "The post you are looking for does not exist." } := by
  constructor
  · intro d tmpl
    rfl
  · rfl

/-- Claim C2: `error_response` gives status 500 for `InternalError` and 404
for `PostNotFound`, always with `Content-Type: text/html; charset=utf-8`
and the fixed human-readable message of the kind as the body. -/
theorem error_response_table :
    ServerError.InternalError.error_response
      = { status := 500
        , headers := [("Content-Type", "text/html; charset=utf-8")]
        , body := "An internal error ocurred. Please try again later." } ∧
    ServerError.PostNotFound.error_response
      = { status := 404
        , headers := [("Content-Type", "text/html; charset=utf-8")]
        , body := "The post you are looking for does not exist." } := by
  exact ⟨rfl, rfl⟩

/-- Claim C3: every Data Access failure reaching the `blog` handler —
`ConnectionPoolError`, `QueryError`, or even a (logically unreachable)
`NotFound` — is mapped to `InternalError`, and `blog` can never produce
`PostNotFound` on any input. -/
theorem blog_all_failures_internal :
    (∀ (f : DatabaseError) (tmpl : Render),
      blog (.error (BlockingError.Error f)) tmpl
        = .error ServerError.InternalError) ∧
    (∀ (blockResult : Except (BlockingError DatabaseError) (List Post))
       (tmpl : Render),
      blog blockResult tmpl ≠ .error ServerError.PostNotFound) := by
  constructor
  · intro f tmpl
    cases f <;> rfl
  · intro blockResult tmpl h
    match blockResult with
    | .error (BlockingError.Error (DatabaseError.ConnectionPoolError d)) =>
        simp [blog] at h
    | .error (BlockingError.Error (DatabaseError.NotFound d)) =>
        simp [blog] at h
    | .error (BlockingError.Error (DatabaseError.QueryError d)) =>
        simp [blog] at h
    | .error BlockingError.Canceled =>
        simp [blog] at h
    | .ok posts =>
        simp only [blog] at h
        cases htm : tmpl "blog.html.tera"
            (Context.insert Context.new "posts" (TValue.postList posts)) <;>
          simp [htm] at h

/-- Claim C4: a connection-pool acquisition failure in either the `blog` or
the `post` handler yields `InternalError`, and the resulting 500 response is
the fixed constant one — its body is exactly the internal-error message no
matter what the failure detail `d` was, so the detail never appears. -/
theorem connection_pool_failure_is_500 :
    (∀ (d : String) (tmpl : Render),
      blog (.error (BlockingError.Error (DatabaseError.ConnectionPoolError d)))
          tmpl
        = .error ServerError.InternalError) ∧
    (∀ (d : String) (tmpl : Render),
      post (.error (BlockingError.Error (DatabaseError.ConnectionPoolError d)))
          tmpl
        = .error ServerError.InternalError) ∧
    ServerError.InternalError.error_response.status = 500 ∧
    ServerError.InternalError.error_response.body
      = "An internal error ocurred. Please try again later." := by
  refine ⟨fun d tmpl => rfl, fun d tmpl => rfl, rfl, rfl⟩

/-- Claim C5: in every handler a template-render failure is surfaced as
`InternalError`, whose response body is the fixed internal-error message —
the rendering error detail `msg` never reaches the body. -/
theorem render_failure_is_internal_error :
    (∀ (tmpl : Render) (msg : String),
      tmpl "index.html.tera" Context.new = .error msg →
        index tmpl = .error ServerError.InternalError) ∧
    (∀ (ps : List Post) (tmpl : Render) (msg : String),
      tmpl "blog.html.tera"
          (Context.insert Context.new "posts" (TValue.postList ps))
        = .error msg →
        blog (.ok ps) tmpl = .error ServerError.InternalError) ∧
    (∀ (p : Post) (tmpl : Render) (msg : String),
      tmpl "post.html.tera"
          (Context.insert Context.new "post" (TValue.singlePost p))
        = .error msg →
        post (.ok p) tmpl = .error ServerError.InternalError) ∧
    (∀ (tmpl : Render) (msg : String),
      tmpl "hireme.html.tera" Context.new = .error msg →
        hire_me tmpl = .error ServerError.InternalError) ∧
    ServerError.InternalError.error_response.body
      = "An internal error ocurred. Please try again later." := by
  refine ⟨?_, ?_, ?_, ?_, rfl⟩
  · intro tmpl msg h
    simp [index, h]
  · intro ps tmpl msg h
    simp [blog, h]
  · intro p tmpl msg h
    simp [post, h]
  · intro tmpl msg h
    simp [hire_me, h]

/-- Witness for claim C5: a render function that always fails makes every
handler return `InternalError`, by the theorem at concrete inputs. -/
theorem render_failure_is_internal_error_witness :
    index (fun _ _ => .error "missing template") = .error ServerError.InternalError ∧
    blog (.ok []) (fun _ _ => .error "missing template") = .error ServerError.InternalError ∧
    post (.ok ⟨"a", "t", "b", 1⟩) (fun _ _ => .error "missing template") = .error ServerError.InternalError ∧
    hire_me (fun _ _ => .error "missing template") = .error ServerError.InternalError :=
  ⟨render_failure_is_internal_error.1 (fun _ _ => .error "missing template") "missing template" rfl,
   render_failure_is_internal_error.2.1 [] (fun _ _ => .error "missing template") "missing template" rfl,
   render_failure_is_internal_error.2.2.1 ⟨"a", "t", "b", 1⟩ (fun _ _ => .error "missing template") "missing template" rfl,
   render_failure_is_internal_error.2.2.2.1 (fun _ _ => .error "missing template") "missing template" rfl⟩

/-- Claim C6: when the blocking execution context itself fails
(`BlockingError::Canceled`), both the `blog` and the `post` handlers return
`InternalError`, never `PostNotFound`. -/
theorem canceled_block_is_internal_error :
    ∀ (tmpl : Render),
      blog (.error BlockingError.Canceled) tmpl
          = .error ServerError.InternalError ∧
      post (.error BlockingError.Canceled) tmpl
          = .error ServerError.InternalError := by
  intro tmpl
  exact ⟨rfl, rfl⟩

/-- Claim C7: the `index` and `hire_me` routes read nothing from the
database store, so their responses agree across any two database states;
and whenever the template set renders their template, the response is a
200. -/
theorem no_data_routes_ignore_db :
    (∀ (s₁ s₂ : List Post) (tmpl : Render),
      index_route s₁ tmpl = index_route s₂ tmpl ∧
      hire_me_route s₁ tmpl = hire_me_route s₂ tmpl) ∧
    (∀ (s : List Post) (tmpl : Render) (r : String),
      tmpl "index.html.tera" Context.new = .ok r →
        (index_route s tmpl).toOption.map HttpResponse.status = some 200) ∧
    (∀ (s : List Post) (tmpl : Render) (r : String),
      tmpl "hireme.html.tera" Context.new = .ok r →
        (hire_me_route s tmpl).toOption.map HttpResponse.status = some 200) := by
  refine ⟨fun s₁ s₂ tmpl => ⟨rfl, rfl⟩, ?_, ?_⟩
  · intro s tmpl r h
    simp [index_route, index, h, HttpResponse.okBody, Except.toOption]
  · intro s tmpl r h
    simp [hire_me_route, hire_me, h, HttpResponse.okBody, Except.toOption]

/-- Witness for claim C7: with a render function that always succeeds, the
two routes return status 200, by the theorem at concrete inputs. -/
theorem no_data_routes_ignore_db_witness :
    (index_route [] (fun _ _ => .ok "page")).toOption.map HttpResponse.status = some 200 ∧
    (hire_me_route [] (fun _ _ => .ok "page")).toOption.map HttpResponse.status = some 200 :=
  ⟨no_data_routes_ignore_db.2.1 [] (fun _ _ => .ok "page") "page" rfl,
   no_data_routes_ignore_db.2.2 [] (fun _ _ => .ok "page") "page" rfl⟩

/-- Claim C8: whenever data gathering (if any) and rendering both succeed,
each handler returns a 200 response whose body is exactly the rendered
output (and no headers are added on this path). -/
theorem success_is_200_with_rendered_body :
    (∀ (tmpl : Render) (r : String),
      tmpl "index.html.tera" Context.new = .ok r →
        index tmpl = .ok { status := 200, headers := [], body := r }) ∧
    (∀ (ps : List Post) (tmpl : Render) (r : String),
      tmpl "blog.html.tera"
          (Context.insert Context.new "posts" (TValue.postList ps)) = .ok r →
        blog (.ok ps) tmpl = .ok { status := 200, headers := [], body := r }) ∧
    (∀ (p : Post) (tmpl : Render) (r : String),
      tmpl "post.html.tera"
          (Context.insert Context.new "post" (TValue.singlePost p)) = .ok r →
        post (.ok p) tmpl = .ok { status := 200, headers := [], body := r }) ∧
    (∀ (tmpl : Render) (r : String),
      tmpl "hireme.html.tera" Context.new = .ok r →
        hire_me tmpl = .ok { status := 200, headers := [], body := r }) := by
  refine ⟨?_, ?_, ?_, ?_⟩
  · intro tmpl r h
    simp [index, h, HttpResponse.okBody]
  · intro ps tmpl r h
    simp [blog, h, HttpResponse.okBody]
  · intro p tmpl r h
    simp [post, h, HttpResponse.okBody]
  · intro tmpl r h
    simp [hire_me, h, HttpResponse.okBody]

/-- Witness for claim C8: a render function that always succeeds yields
exactly the 200 response with the rendered body, by the theorem at concrete
inputs. -/
theorem success_is_200_with_rendered_body_witness :
    index (fun _ _ => .ok "html") = .ok { status := 200, headers := [], body := "html" } ∧
    blog (.ok []) (fun _ _ => .ok "html") = .ok { status := 200, headers := [], body := "html" } ∧
    post (.ok ⟨"a", "t", "b", 1⟩) (fun _ _ => .ok "html") = .ok { status := 200, headers := [], body := "html" } ∧
    hire_me (fun _ _ => .ok "html") = .ok { status := 200, headers := [], body := "html" } :=
  ⟨success_is_200_with_rendered_body.1 (fun _ _ => .ok "html") "html" rfl,
   success_is_200_with_rendered_body.2.1 [] (fun _ _ => .ok "html") "html" rfl,
   success_is_200_with_rendered_body.2.2.1 ⟨"a", "t", "b", 1⟩ (fun _ _ => .ok "html") "html" rfl,
   success_is_200_with_rendered_body.2.2.2 (fun _ _ => .ok "html") "html" rfl⟩

/-- Claim C9: on the success path each handler invokes the template engine
with exactly its template name and context — `blog` with "blog.html.tera"
and the posts under key "posts", `post` with "post.html.tera" and the post
under key "post", `index` and `hire_me` with their templates and the empty
context.  The render function below succeeds only on that exact pair, so a
200 response proves the handler passed it. -/
theorem handlers_use_expected_template_and_context :
    ∀ (ps : List Post) (p : Post),
      blog (.ok ps)
          (fun nm c =>
            if nm = "blog.html.tera" ∧ c = [("posts", TValue.postList ps)]
            then .ok "R" else .error "unexpected render call")
        = .ok (HttpResponse.okBody "R") ∧
      post (.ok p)
          (fun nm c =>
            if nm = "post.html.tera" ∧ c = [("post", TValue.singlePost p)]
            then .ok "R" else .error "unexpected render call")
        = .ok (HttpResponse.okBody "R") ∧
      index
          (fun nm c =>
            if nm = "index.html.tera" ∧ c = []
            then .ok "R" else .error "unexpected render call")
        = .ok (HttpResponse.okBody "R") ∧
      hire_me
          (fun nm c =>
            if nm = "hireme.html.tera" ∧ c = []
            then .ok "R" else .error "unexpected render call")
        = .ok (HttpResponse.okBody "R") := by
  intro ps p
  refine ⟨?_, ?_, ?_, ?_⟩ <;>
    simp [blog, post, index, hire_me, Context.insert, Context.new]

/-- Claim C10: if the Data Access call fails, `blog` and `post` return the
mapped error without ever consulting the render function — the result is
identical for any two render functions and is always an error. -/
theorem db_failure_short_circuits_render :
    ∀ (e : BlockingError DatabaseError) (tmpl₁ tmpl₂ : Render),
      blog (.error e) tmpl₁ = blog (.error e) tmpl₂ ∧
      post (.error e) tmpl₁ = post (.error e) tmpl₂ ∧
      (∃ err₁, blog (.error e) tmpl₁ = .error err₁) ∧
      (∃ err₂, post (.error e) tmpl₁ = .error err₂) := by
  intro e tmpl₁ tmpl₂
  exact ⟨rfl, rfl, ⟨_, rfl⟩, ⟨_, rfl⟩⟩

/-- Witness for claim C3: at a concrete `QueryError` input the `blog`
handler returns `InternalError`, and at a concrete success input it does not
return `PostNotFound`, by the theorem at concrete inputs. -/
theorem blog_all_failures_internal_witness :
    blog (.error (BlockingError.Error (DatabaseError.QueryError "boom")))
        (fun _ _ => .ok "R") = .error ServerError.InternalError ∧
    blog (.ok []) (fun _ _ => .ok "R") ≠ .error ServerError.PostNotFound :=
  ⟨blog_all_failures_internal.1 (DatabaseError.QueryError "boom")
      (fun _ _ => .ok "R"),
   blog_all_failures_internal.2 (.ok []) (fun _ _ => .ok "R")⟩
